import Mathlib

/-!
Shallow embedding of the vehicle enrichment pipeline
(src/flows/vehicle/{client,schemas,main_details,main_fipe,
vehicle_details_api_to_snowflake,vehicle_fipe_to_snowflake}.py).

Pure Python helpers become Lean functions; SQL status updates become
functions on an explicit list-of-rows table; the HTTP provider becomes an
oracle passed as data; wall-clock time becomes an explicit Nat clock.
String primitives (replace of a single character, upper, strip, split,
substring test, int parsing) are implemented structurally over `List Char`
so that all definitions evaluate inside the kernel.
-/

namespace VehicleFlows

/-- Python `s.replace(c, "")` for a one-character pattern: removes every
occurrence of the character. -/
def removeChar (c : Char) (l : List Char) : List Char :=
  l.filter (fun x => x ≠ c)

def isSpaceCh (c : Char) : Bool :=
  c = ' ' || c = '\t' || c = '\n' || c = '\r'

/-- Python `s.strip()`: drops whitespace from both ends. -/
def trimChars (l : List Char) : List Char :=
  ((l.dropWhile isSpaceCh).reverse.dropWhile isSpaceCh).reverse

/-- ASCII uppercase of one character (the inputs the pipeline compares are
ASCII). -/
def asciiUpperChar (c : Char) : Char :=
  if 'a' ≤ c && c ≤ 'z' then Char.ofNat (c.toNat - 32) else c

/-- Python `s.upper()` restricted to ASCII letters. -/
def asciiUpper (s : String) : String :=
  String.mk (s.data.map asciiUpperChar)

/-- Splits a character list at every occurrence of `c` (keeping empty
pieces, like Python `s.split(c)`). -/
def splitOnChar (c : Char) : List Char → List (List Char)
  | [] => [[]]
  | x :: xs =>
    if x = c then [] :: splitOnChar c xs
    else
      match splitOnChar c xs with
      | [] => [[x]]
      | w :: ws => (x :: w) :: ws

/-- Python `s.split()` on space characters: splits and drops empty pieces. -/
def pySplit (s : String) : List String :=
  ((splitOnChar ' ' s.data).filter (fun w => w ≠ [])).map String.mk

/-- Naive substring search on character lists. -/
def containsSubAux : List Char → List Char → Bool
  | [], pat => pat.isEmpty
  | h :: t, pat => pat.isPrefixOf (h :: t) || containsSubAux t pat

/-- Python `pat in s` substring test. -/
def strContainsSub (s pat : String) : Bool :=
  containsSubAux s.data pat.data

def isDigitCh (c : Char) : Bool := '0' ≤ c && c ≤ '9'

def isUpperAlpha (c : Char) : Bool := 'A' ≤ c && c ≤ 'Z'

/-- Value of a non-empty digit string, `none` when any character is not a
digit. -/
def digitsToNat? (l : List Char) : Option Nat :=
  if l.isEmpty then none
  else
    l.foldl
      (fun acc c =>
        match acc with
        | none => none
        | some n => if isDigitCh c then some (n * 10 + (c.toNat - 48)) else none)
      (some 0)

/-- Python `int(s)` on a string: surrounding whitespace stripped, optional
sign, digits; anything else raises ValueError (modelled as `none`). -/
def pyParseInt (s : String) : Option Int :=
  match trimChars s.data with
  | '-' :: rest => (digitsToNat? rest).map (fun n => -(n : Int))
  | '+' :: rest => (digitsToNat? rest).map (fun n => (n : Int))
  | l => (digitsToNat? l).map (fun n => (n : Int))

/-- Decimal digits of a natural number (`fuel`-bounded structural
recursion; `fuel ≥ n` suffices). -/
def natDigitsAux : Nat → Nat → List Char
  | 0, _ => []
  | f + 1, n => if n = 0 then [] else natDigitsAux f (n / 10) ++ [Char.ofNat (48 + n % 10)]

/-- Python `str(i)` for an integer. -/
def intToStr (i : Int) : String :=
  match i with
  | .ofNat n => if n = 0 then "0" else String.mk (natDigitsAux n n)
  | .negSucc m => String.mk ('-' :: natDigitsAux (m + 1) (m + 1))

/-- Python truthiness of an optional string: `None` and `""` are falsy. -/
def truthyStr (o : Option String) : Bool :=
  o.getD "" != ""

/-- A JSON scalar as the provider may return it for a year field:
an integer, a string (possibly masked like "****"), or some other
non-int-convertible value (int() raises TypeError on it). -/
inductive PyVal where
  | int (n : Int)
  | str (s : String)
  | other
deriving DecidableEq

/-- The vehicle payload dict returned by the plate provider
(keys marca/modelo/ano/anoModelo/cor). -/
structure VehicleData where
  marca : Option String
  modelo : Option String
  ano : Option PyVal
  anoModelo : Option PyVal
  cor : Option String
deriving DecidableEq

/-! Plate format validation (client.py, validate_plate). -/

/-- Models `plate.replace("-", "").replace(" ", "").upper().strip()`. -/
def normalizePlate (plate : String) : String :=
  String.mk (trimChars ((removeChar ' ' (removeChar '-' plate.data)).map asciiUpperChar))

/-- Regex `[A-Z]{3}[0-9]{4}` anchored at both ends (old plate shape
ABC1234). -/
def matchesOldPattern (s : String) : Bool :=
  match s.data with
  | [a, b, c, d, e, f, g] =>
    isUpperAlpha a && isUpperAlpha b && isUpperAlpha c &&
    isDigitCh d && isDigitCh e && isDigitCh f && isDigitCh g
  | _ => false

/-- Regex `[A-Z]{3}[0-9][A-Z][0-9]{2}` anchored at both ends (Mercosul
plate shape ABC1D23). -/
def matchesMercosulPattern (s : String) : Bool :=
  match s.data with
  | [a, b, c, d, e, f, g] =>
    isUpperAlpha a && isUpperAlpha b && isUpperAlpha c &&
    isDigitCh d && isUpperAlpha e && isDigitCh f && isDigitCh g
  | _ => false

/-- Models `AnyCarAPIClient.validate_plate` / `PlacaAPIClient.validate_plate`
(client.py lines 131-145 and 324-338): empty input is rejected, otherwise
the plate is normalized and must match one of the two accepted shapes. -/
def validate_plate (plate : String) : Option String :=
  if plate = "" then none
  else
    let clean := normalizePlate plate
    if matchesOldPattern clean || matchesMercosulPattern clean then some clean
    else none

/-! Outcome classification of one HTTP call
(client.py, PlacaAPIClient._query_once). -/

/-- The four-way outcome union produced per plate by the enrichment client:
`success` carries the payload dict, `invalid` the reason string,
`rateLimited` models the dict with status 429, and `transientUnknown`
models the Python `None` return. -/
inductive PlateOutcome where
  | success (data : VehicleData)
  | invalid (reason : String)
  | rateLimited
  | transientUnknown
deriving DecidableEq

/-- An HTTP response as `PlacaAPIClient._query_once` inspects it:
status code, body `success` flag, optional body `data` dict, and the
optional body `error` field used for 400 responses. -/
structure HttpResponse where
  status_code : Nat
  success : Bool
  data : Option VehicleData
  errorField : Option String
deriving DecidableEq

/-- Models `PlacaAPIClient._query_once` (client.py lines 340-380), with the
HTTP layer abstracted to the already-parsed response.  Checks are performed
in the source order: 400, 404, 403, >=500, 200, 429, otherwise None. -/
def placaQueryOnce (r : HttpResponse) : PlateOutcome :=
  if r.status_code = 400 then .invalid (r.errorField.getD "400_INVALID_DATA")
  else if r.status_code = 404 then .invalid "404_NOT_FOUND"
  else if r.status_code = 403 then .invalid "403_FORBIDDEN"
  else if 500 ≤ r.status_code then .invalid (intToStr r.status_code ++ "_SERVER_ERROR")
  else if r.status_code = 200 then
    match r.success, r.data with
    | true, some d =>
      if truthyStr d.marca || truthyStr d.modelo then .success d
      else .invalid "EMPTY_DATA"
    | _, _ => .transientUnknown
  else if r.status_code = 429 then .rateLimited
  else .transientUnknown

/-- Specification-side restatement of the response mapping, written in the
order of the specification text (400/403/404/5xx, then 429, then the two
200 cases, and any other shape as transient), with the 400 reason taken
from the body's error field when present. -/
def placaOutcomeSpec (r : HttpResponse) : PlateOutcome :=
  if r.status_code = 400 then .invalid (r.errorField.getD "400_INVALID_DATA")
  else if r.status_code = 403 then .invalid "403_FORBIDDEN"
  else if r.status_code = 404 then .invalid "404_NOT_FOUND"
  else if 500 ≤ r.status_code then .invalid (intToStr r.status_code ++ "_SERVER_ERROR")
  else if r.status_code = 429 then .rateLimited
  else if r.status_code = 200 then
    match r.success, r.data with
    | true, some d =>
      if truthyStr d.marca || truthyStr d.modelo then .success d
      else .invalid "EMPTY_DATA"
    | _, _ => .transientUnknown
  else .transientUnknown

/-! Retry loop of query_plate (client.py; AnyCarAPIClient.query_plate and
PlacaAPIClient.query_plate share this logic verbatim). -/

def MAX_RETRIES : Nat := 5

def RETRY_BACKOFF : Nat := 15

/-- Models the `while attempts < MAX_RETRIES` retry loop of `query_plate`.
`responses i` is the outcome of the network call made when the attempt
counter equals `i`.  Returns the final outcome, the list of backoff sleeps
performed (in seconds), and the number of network calls made.
`fuel` stands for `MAX_RETRIES - attempts`, so the loop condition
`attempts < MAX_RETRIES` is `fuel > 0`. -/
def retryLoop (responses : Nat → PlateOutcome) (attempts fuel : Nat) :
    PlateOutcome × List Nat × Nat :=
  match fuel with
  | 0 => (.transientUnknown, [], 0)
  | fuel' + 1 =>
    match responses attempts with
    | .invalid r => (.invalid r, [], 1)
    | .rateLimited =>
      if attempts + 1 < MAX_RETRIES then
        let rest := retryLoop responses (attempts + 1) fuel'
        (rest.1, (RETRY_BACKOFF + (attempts + 1) * 5) :: rest.2.1, rest.2.2 + 1)
      else (.transientUnknown, [], 1)
    | other => (other, [], 1)

/-- Models `query_plate` (client.py lines 382-422): local format validation
first (an invalid format returns immediately with zero network calls),
then the retry loop. -/
def query_plate (plate : String) (responses : Nat → PlateOutcome) :
    PlateOutcome × List Nat × Nat :=
  match validate_plate plate with
  | none => (.invalid "INVALID_PLATE_FORMAT", [], 0)
  | some _ => retryLoop responses 0 MAX_RETRIES

/-- The list of backoff sleeps `RETRY_BACKOFF + attempts * 5` performed by
the retry loop when every response is a 429, starting from the given
attempt counter with the given remaining fuel. -/
def backoffList (attempts : Nat) : Nat → List Nat
  | 0 => []
  | fuel + 1 =>
    if attempts + 1 < MAX_RETRIES then
      (RETRY_BACKOFF + (attempts + 1) * 5) :: backoffList (attempts + 1) fuel
    else []

/-! Year sanitization (schemas.py, _safe_int and
transform_plate_to_snowflake_row). -/

/-- The two range checks of `_safe_int`: PostgreSQL INTEGER range first,
then the plausible year range [1900, 2100]. -/
def clampYear (n : Int) : Option Int :=
  if n < -2147483648 ∨ 2147483647 < n then none
  else if n < 1900 ∨ 2100 < n then none
  else some n

/-- Models `_safe_int` (schemas.py lines 143-167): `None` stays `None`; a
masked or empty-after-cleaning string yields `None`; a non-parsable value
yields `None`; a parsed number outside the PostgreSQL INTEGER range or
outside [1900, 2100] yields `None`; otherwise the number. -/
def safe_int : Option PyVal → Option Int
  | none => none
  | some (.int n) => clampYear n
  | some (.str s) =>
    let cleaned := trimChars (removeChar '-' (removeChar '*' s.data))
    if cleaned = [] then none
    else
      match pyParseInt s with
      | none => none
      | some n => clampYear n
  | some .other => none

/-- The row dict built by `transform_plate_to_snowflake_row`
(schemas.py lines 170-195).  The DT_COLETA_API wall-clock read is not
modelled. -/
structure SnowPlateRow where
  ds_placa : String
  ds_marca : Option String
  ds_modelo : Option String
  nr_ano_fabricacao : Option Int
  nr_ano_modelo : Option Int
  ds_cor : Option String
deriving DecidableEq

/-- Models `transform_plate_to_snowflake_row` (schemas.py lines 170-195):
the two year fields pass through `_safe_int`; color is upper-cased when
truthy. -/
def transform_plate_to_snowflake_row (plate : String) (vehicle_data : VehicleData) :
    SnowPlateRow :=
  { ds_placa := plate
    ds_marca := vehicle_data.marca
    ds_modelo := vehicle_data.modelo
    nr_ano_fabricacao := safe_int vehicle_data.ano
    nr_ano_modelo := safe_int vehicle_data.anoModelo
    ds_cor :=
      if truthyStr vehicle_data.cor then some (asciiUpper (vehicle_data.cor.getD ""))
      else none }

/-! FIPE matcher (main_fipe.py, query_fipe, with the provider calls of
client.py FipeAPIClient abstracted into an oracle). -/

/-- One entry of the provider's model list (keys Label/Value). -/
structure ModelEntry where
  label : String
  value : String
deriving DecidableEq

/-- One entry of the provider's year/fuel list (keys Label/Value). -/
structure YearEntry where
  label : String
  value : String
deriving DecidableEq

/-- Static brand table `FipeAPIClient.BRAND_CODES`
(client.py lines 31-38). -/
def BRAND_CODES : List (String × String) :=
  [("ACURA", "1"), ("AGRALE", "2"), ("ALFA ROMEO", "3"), ("AUDI", "6"),
   ("BMW", "7"), ("BYD", "238"), ("CAOA CHERY", "245"), ("CHERY", "245"),
   ("CHEVROLET", "23"), ("GM", "23"), ("CITROËN", "13"), ("CITROEN", "13"),
   ("FIAT", "21"), ("FORD", "22"), ("HONDA", "25"), ("HYUNDAI", "26"),
   ("JEEP", "29"), ("KIA", "31"), ("MERCEDES-BENZ", "39"), ("MERCEDES", "39"),
   ("MITSUBISHI", "41"), ("NISSAN", "43"), ("PEUGEOT", "44"), ("PORSCHE", "47"),
   ("RAM", "185"), ("RENAULT", "48"), ("TOYOTA", "56"), ("VOLKSWAGEN", "59"),
   ("VW", "59"), ("VOLVO", "58")]

/-- Dict lookup `BRAND_CODES.get(brand)`. -/
def brandCode (brand : String) : Option String :=
  BRAND_CODES.lookup brand

/-- Leading year token of a year entry:
`y["Value"].split("-")[0] if "-" in y["Value"] else y["Label"].split()[0]`. -/
def yearToken (y : YearEntry) : String :=
  if strContainsSub y.value "-" then
    String.mk (((splitOnChar '-' y.value.data).headD []))
  else (pySplit y.label).headD ""

/-- Candidates whose upper-cased label contains every keyword. -/
def allKeywordModels (models : List ModelEntry) (keywords : List String) :
    List ModelEntry :=
  models.filter (fun m => keywords.all (fun k => strContainsSub (asciiUpper m.label) k))

/-- Candidates whose upper-cased label contains the first keyword. -/
def firstKeywordModels (models : List ModelEntry) (keywords : List String) :
    List ModelEntry :=
  models.filter (fun m => strContainsSub (asciiUpper m.label) (keywords.headD ""))

/-- Candidate selection of `query_fipe` (main_fipe.py lines 131-137):
filter by all keywords, relaxing to the first keyword when empty. -/
def compatibleModels (models : List ModelEntry) (keywords : List String) :
    List ModelEntry :=
  let compatible := allKeywordModels models keywords
  if compatible.isEmpty && !keywords.isEmpty then firstKeywordModels models keywords
  else compatible

/-- Fallback year search of `query_fipe` (main_fipe.py lines 162-174):
walk all candidates in order, fetch each candidate's year list, and return
the first candidate together with its first exactly-matching year entry;
also counts the number of year-list fetches made. -/
def altSearchCalls (yearsOf : String → List YearEntry) (yearStr : String) :
    List ModelEntry → Option (ModelEntry × YearEntry) × Nat
  | [] => (none, 0)
  | v :: rest =>
    match (yearsOf v.value).find? (fun y => yearToken y == yearStr) with
    | some y => (some (v, y), 1)
    | none =>
      let r := altSearchCalls yearsOf yearStr rest
      (r.1, r.2 + 1)

/-- Audit metadata `FipeMetadata` (schemas.py lines 9-17). -/
structure FipeMetadataM where
  alternative_search : Bool
  original_model : Option String
  available_years : Option String
  brand_code : String
  model_code : String
  year_fuel_code : String
deriving DecidableEq

/-- The FIPE provider abstracted as an oracle: the model list returned by
get_models, the year list per model code returned by get_years, and the
valuation returned by get_value for (model code, year, fuel code), where
`none` stands for an HTTP error or the in-body error code "2". -/
structure FipeProvider where
  models : List ModelEntry
  yearsOf : String → List YearEntry
  getValue : String → String → String → Option String

/-- Result of one `query_fipe` call: `invalid` is the `_status: I` dict
with its reason, `err` the Python `None` (retryable), `success` the
valuation payload with audit metadata. -/
inductive FipeResult where
  | invalid (motivo : String)
  | err
  | success (valor : String) (meta : FipeMetadataM)
deriving DecidableEq

/-- Year half of `year_model_code.split("-")` handling
(main_fipe.py lines 184-189). -/
def cleanYearOf (yearFuelCode : String) : String :=
  if strContainsSub yearFuelCode "-" then
    String.mk ((splitOnChar '-' yearFuelCode.data).headD [])
  else yearFuelCode

/-- Fuel half of `year_model_code.split("-")` handling, defaulting to "1". -/
def fuelCodeOf (yearFuelCode : String) : String :=
  if strContainsSub yearFuelCode "-" then
    String.mk ((splitOnChar '-' yearFuelCode.data).getD 1 [])
  else "1"

/-- Comma-space join, as Python `", ".join(...)`. -/
def joinCommaSep : List String → String
  | [] => ""
  | [x] => x
  | x :: xs => x ++ ", " ++ joinCommaSep xs

/-- Audit text `", ".join([y["Label"] for y in years[:10]])`. -/
def availableYearsText (years : List YearEntry) : String :=
  joinCommaSep ((years.take 10).map (fun y => y.label))

/-- Models `query_fipe` (main_fipe.py lines 108-202).  Besides the result
it returns the number of provider calls made (get_models, each get_years,
get_value each count one).  An unmapped brand returns before any call. -/
def query_fipe (brand modelName : String) (yearModel : Int) (p : FipeProvider) :
    FipeResult × Nat :=
  match brandCode (asciiUpper brand) with
  | none => (.invalid ("Marca \x27" ++ brand ++ "\x27 não mapeada"), 0)
  | some bc =>
    if p.models.isEmpty then (.err, 1)
    else
      let keywords := pySplit (asciiUpper modelName)
      let compatible := compatibleModels p.models keywords
      if compatible.isEmpty then
        (.invalid ("Modelo \x27" ++ modelName ++ "\x27 não encontrado"), 1)
      else
        let foundModel := compatible.getLastD { label := "", value := "" }
        let yearStr := intToStr yearModel
        let years := p.yearsOf foundModel.value
        let compatibleYears := years.filter (fun y => yearToken y == yearStr)
        match compatibleYears.head? with
        | some fy =>
          let meta : FipeMetadataM :=
            { alternative_search := false, original_model := none,
              available_years := none, brand_code := bc,
              model_code := foundModel.value, year_fuel_code := fy.value }
          (match p.getValue foundModel.value (cleanYearOf fy.value) (fuelCodeOf fy.value) with
           | none => (.err, 3)
           | some v => (.success v meta, 3))
        | none =>
          match altSearchCalls p.yearsOf yearStr compatible with
          | (none, n) => (.err, 2 + n)
          | (some (variant, vy), n) =>
            let meta : FipeMetadataM :=
              { alternative_search := true, original_model := some foundModel.label,
                available_years := some (availableYearsText years), brand_code := bc,
                model_code := variant.value, year_fuel_code := vy.value }
            (match p.getValue variant.value (cleanYearOf vy.value) (fuelCodeOf vy.value) with
             | none => (.err, 3 + n)
             | some v => (.success v meta, 3 + n))

/-- Concrete provider for the CIVIC fallback scenario: three candidate
trims, the target year 2020 absent from the last candidate's year list but
present on the first, and a valuation for the first trim at 2020. -/
def civicProvider : FipeProvider :=
  { models :=
      [{ label := "HONDA CIVIC EX", value := "9001" },
       { label := "HONDA CIVIC LX", value := "9002" },
       { label := "HONDA CIVIC TOURING", value := "9003" }]
    yearsOf := fun code =>
      if code = "9003" then [{ label := "2019 Gasolina", value := "2019-1" }]
      else if code = "9001" then [{ label := "2020 Gasolina", value := "2020-1" }]
      else []
    getValue := fun mc y f =>
      if mc = "9001" && y = "2020" && f = "1" then some "R$ 99.000,00" else none }

/-! Status table for plates (table BRZ_01_PLACA_RAW, operated on by
main_details.py and vehicle_details_api_to_snowflake.py). -/

/-- One row of BRZ_01_PLACA_RAW. -/
structure PlacaRow where
  ds_placa : String
  ds_status : String
  ds_motivo_erro : Option String
  nr_tentativas : Nat
  dt_insercao : Int
  dt_coleta : Option Int
deriving DecidableEq

/-- Models the `reasons is None` path of `update_status`
(main_details.py lines 113-130): one UPDATE with `WHERE ds_placa IN
(plates)` and NO status guard, optionally also incrementing nr_tentativas
and stamping dt_coleta; the returned count is the cursor rowcount, i.e.
the number of rows matching the IN list.  `now` models the wall clock read
by get_datetime_brasilia. -/
def md_update_status (t : List PlacaRow) (plates : List String) (status : String)
    (update_collection_date : Bool) (now : Int) : List PlacaRow × Nat :=
  if plates = [] then (t, 0)
  else
    (t.map (fun r =>
        if plates.contains r.ds_placa then
          if update_collection_date then
            { r with ds_status := status, nr_tentativas := r.nr_tentativas + 1,
                     dt_coleta := some now }
          else { r with ds_status := status }
        else r),
     t.countP (fun r => plates.contains r.ds_placa))

/-- Priority used by the pending query:
`CASE ds_status WHEN P THEN 1 WHEN E THEN 2 WHEN N THEN 3 END`. -/
def statusPriority (s : String) : Nat :=
  if s = "P" then 1 else if s = "E" then 2 else if s = "N" then 3 else 4

/-- Sort order of the pending query: priority ascending, then dt_insercao
descending. -/
def pendingLE (a b : PlacaRow) : Bool :=
  statusPriority a.ds_status < statusPriority b.ds_status ||
    (statusPriority a.ds_status = statusPriority b.ds_status &&
      b.dt_insercao ≤ a.dt_insercao)

/-- Stable insertion sort by a boolean total preorder (the model of the
SQL ORDER BY). -/
def insertBy {α : Type} (le : α → α → Bool) (x : α) : List α → List α
  | [] => [x]
  | y :: ys => if le x y then x :: y :: ys else y :: insertBy le x ys

def sortBy {α : Type} (le : α → α → Bool) : List α → List α
  | [] => []
  | x :: xs => insertBy le x (sortBy le xs)

/-- Models `get_pending_plates` (main_details.py lines 51-77):
`WHERE ds_status IN (P, E, N) ORDER BY priority, dt_insercao DESC
LIMIT batch_size`. -/
def get_pending_plates (t : List PlacaRow) (batch_size : Nat) : List PlacaRow :=
  (sortBy pendingLE
    (t.filter (fun r =>
      r.ds_status == "P" || r.ds_status == "E" || r.ds_status == "N"))).take batch_size

/-- Models the batch-acquisition step of `main` (main_details.py lines
269-298): fetch pending plates, mark them all Processing via the
unguarded update, and return the full fetched batch (the update count is
returned but never used to shrink the batch), plus the updated table. -/
def acquire_batch (t : List PlacaRow) (batch_size : Nat) (now : Int) :
    List String × Nat × List PlacaRow :=
  let plates := (get_pending_plates t batch_size).map (fun r => r.ds_placa)
  let upd := md_update_status t plates "P" true now
  (plates, upd.2, upd.1)

/-- Specification-side notion for the Claimer: the subset of the batch
this run actually transitioned from New/Error to Processing. -/
def transitionedKeys (t : List PlacaRow) (batch : List String) : List String :=
  (t.filter (fun r =>
      batch.contains r.ds_placa && (r.ds_status == "N" || r.ds_status == "E"))).map
    (fun r => r.ds_placa)

/-! Status table for vehicles (table BRZ_03_VEICULO_CONSOLIDADO, operated
on by main_fipe.py and vehicle_fipe_to_snowflake.py). -/

/-- One row of BRZ_03_VEICULO_CONSOLIDADO. -/
structure VeiculoRow where
  ds_marca : String
  ds_modelo : String
  nr_ano_modelo : Int
  ds_status : String
  ds_motivo_erro : Option String
deriving DecidableEq

/-- The composite key used by all vehicle status updates:
(DS_MARCA, DS_MODELO, NR_ANO_MODELO). -/
def vMatches (r : VeiculoRow) (k : String × String × Int) : Bool :=
  r.ds_marca == k.1 && r.ds_modelo == k.2.1 && r.nr_ano_modelo == k.2.2

/-- One guarded per-key UPDATE: `SET DS_STATUS = toSt WHERE key matches AND
DS_STATUS IN froms`; returns the new table and the cursor rowcount. -/
def updateKeyGuarded (froms : List String) (toSt : String) (t : List VeiculoRow)
    (k : String × String × Int) : List VeiculoRow × Nat :=
  (t.map (fun r =>
      if vMatches r k && froms.contains r.ds_status then { r with ds_status := toSt }
      else r),
   t.countP (fun r => vMatches r k && froms.contains r.ds_status))

/-- Per-key loop of the guarded status updates in
vehicle_fipe_to_snowflake.py (update_status_processing lines 191-241 with
froms = [N, E] and toSt = P; update_status_error lines 243-291 with
froms = [P], toSt = E; the inline success update lines 918-931 with
froms = [P], toSt = S), summing the per-statement rowcounts. -/
def updateKeysGuarded (froms : List String) (toSt : String) :
    List VeiculoRow → List (String × String × Int) → List VeiculoRow × Nat
  | t, [] => (t, 0)
  | t, k :: ks =>
    let step := updateKeyGuarded froms toSt t k
    let rest := updateKeysGuarded froms toSt step.1 ks
    (rest.1, step.2 + rest.2)

/-- Models `update_status_processing` (vehicle_fipe_to_snowflake.py lines
191-241): status N or E goes to P, guarded. -/
def update_status_processing_vf (t : List VeiculoRow)
    (keys : List (String × String × Int)) : List VeiculoRow × Nat :=
  updateKeysGuarded ["N", "E"] "P" t keys

/-- Models the inline success update of `vehicle_fipe_to_snowflake` (lines
918-931): status P goes to S, guarded by `AND DS_STATUS = P`. -/
def mark_success_vf (t : List VeiculoRow) (keys : List (String × String × Int)) :
    List VeiculoRow × Nat :=
  updateKeysGuarded ["P"] "S" t keys

/-- Models `update_status_error` (vehicle_fipe_to_snowflake.py lines
243-291): status P goes to E, guarded. -/
def mark_error_vf (t : List VeiculoRow) (keys : List (String × String × Int)) :
    List VeiculoRow × Nat :=
  updateKeysGuarded ["P"] "E" t keys

/-- Models `update_status_invalid` (vehicle_fipe_to_snowflake.py lines
294-355): status P goes to I with the per-key reason stored in
DS_MOTIVO_ERRO, guarded by `AND DS_STATUS = P`. -/
def update_status_invalid_vf :
    List VeiculoRow → List ((String × String × Int) × String) → List VeiculoRow × Nat
  | t, [] => (t, 0)
  | t, (k, reason) :: ks =>
    let t1 := t.map (fun r =>
      if vMatches r k && r.ds_status == "P" then
        { r with ds_status := "I", ds_motivo_erro := some reason }
      else r)
    let n1 := t.countP (fun r => vMatches r k && r.ds_status == "P")
    let rest := update_status_invalid_vf t1 ks
    (rest.1, n1 + rest.2)

/-- Models `update_status` (main_fipe.py lines 67-105): an executemany of
per-key UPDATEs `SET DS_STATUS = status WHERE DS_MARCA = .. AND
DS_MODELO = .. AND NR_ANO_MODELO = ..` with NO status guard, rowcount
being the total of matched rows. -/
def mf_update_status :
    List VeiculoRow → List (String × String × Int) → String → List VeiculoRow × Nat
  | t, [], _ => (t, 0)
  | t, k :: ks, status =>
    let t1 := t.map (fun r => if vMatches r k then { r with ds_status := status } else r)
    let n1 := t.countP (fun r => vMatches r k)
    let rest := mf_update_status t1 ks status
    (rest.1, n1 + rest.2)

/-- A row matches one of the listed composite keys. -/
def anyKeyMatches (keys : List (String × String × Int)) (r : VeiculoRow) : Bool :=
  keys.any (fun k => vMatches r k)

/-- A row is hit by a guarded update: some listed key matches it and its
current status is one of `froms`. -/
def guardHit (froms : List String) (keys : List (String × String × Int))
    (r : VeiculoRow) : Bool :=
  anyKeyMatches keys r && froms.contains r.ds_status

/-- Row-level effect of a full guarded update pass: exactly the hit rows
get the new status, every other row is untouched. -/
def guardedRowMap (froms : List String) (toSt : String)
    (keys : List (String × String × Int)) (r : VeiculoRow) : VeiculoRow :=
  if guardHit froms keys r then { r with ds_status := toSt } else r

/-- Concrete one-row tables used by the counterexamples. -/
def plateRowNew : PlacaRow :=
  { ds_placa := "ABC1234", ds_status := "N", ds_motivo_erro := none,
    nr_tentativas := 0, dt_insercao := 0, dt_coleta := none }

def plateRowProcessing : PlacaRow :=
  { ds_placa := "XYZ9876", ds_status := "P", ds_motivo_erro := none,
    nr_tentativas := 3, dt_insercao := 0, dt_coleta := none }

def vehRowProcessing : VeiculoRow :=
  { ds_marca := "FIAT", ds_modelo := "UNO", nr_ano_modelo := 2020,
    ds_status := "P", ds_motivo_erro := none }

/-! Rate limiter (main_details.py process_plates, and
vehicle_details_api_to_snowflake.py process_plate_batch).  Time is an
explicit Nat clock in seconds; `procTime` is the time one network call
consumes; a dispatch time is the clock value when the request is issued. -/

/-- Loop state of `process_plates` (main_details.py lines 144-212): the
clock and the window of request timestamps.  The window-sleep and
minimum-interval blocks are commented out in the source, so the loop never
sleeps; it only drops timestamps older than 60 s.  The appended timestamp
is taken after the call returns. -/
structure MDState where
  now : Nat
  window : List Nat
deriving DecidableEq

/-- One iteration of the `process_plates` loop for a valid plate: drop old
timestamps, dispatch immediately, record the post-call time. -/
def mdStep (s : MDState) (procTime : Nat) : MDState × Nat :=
  let cur := s.now
  let w := s.window.filter (fun ts => cur - ts < 60)
  ({ now := cur + procTime, window := w ++ [cur + procTime] }, cur)

/-- Dispatch times of a sequence of valid plates through `process_plates`. -/
def mdRun : MDState → List Nat → List Nat
  | _, [] => []
  | s, p :: ps => (mdStep s p).2 :: mdRun (mdStep s p).1 ps

/-- Loop state of `process_plate_batch`
(vehicle_details_api_to_snowflake.py lines 326-467): the clock, the window
`request_timestamps`, and `last_request_time`. -/
structure PBState where
  now : Nat
  window : List Nat
  lastReq : Option Nat
deriving DecidableEq

/-- REGRA 1 (minimum 10 s interval): sleep until 10 s after the previous
request when needed. -/
def pbMinInterval (s : PBState) : Nat :=
  match s.lastReq with
  | none => s.now
  | some l => if s.now - l < 10 then l + 10 else s.now

/-- REGRA 2 (sliding window): drop timestamps older than 60 s. -/
def pbWindow (s : PBState) (c1 : Nat) : List Nat :=
  s.window.filter (fun ts => c1 - ts < 60)

/-- REGRA 3 (window control): when the cleaned window holds 5 entries,
sleep until the oldest entry is 63 s old (60 s window plus 3 s safety
margin); the dispatch happens right after. -/
def pbDispatchTime (c1 : Nat) (w1 : List Nat) : Nat :=
  if 5 ≤ w1.length then (if c1 - w1.headD 0 < 63 then w1.headD 0 + 63 else c1)
  else c1

/-- One iteration of the `process_plate_batch` loop for one request
(REQUESTS_PER_WINDOW = 5, WINDOW_DURATION = 60, SAFETY_MARGIN = 3,
MIN_INTERVAL = 10): REGRA 1 minimum interval, REGRA 2 drop timestamps
older than 60 s, REGRA 3 when the window holds 5 entries sleep until the
oldest entry is 63 s old and pop it, then dispatch, appending the dispatch
time to the window. -/
def pbStep (s : PBState) (procTime : Nat) : PBState × Nat :=
  let c1 := pbMinInterval s
  let w1 := pbWindow s c1
  let c2 := pbDispatchTime c1 w1
  let w2 := if 5 ≤ w1.length then w1.tail ++ [c2] else w1 ++ [c2]
  ({ now := c2 + procTime, window := w2, lastReq := some c2 }, c2)

/-- Dispatch times of a sequence of requests through
`process_plate_batch`. -/
def pbRun : PBState → List Nat → List Nat
  | _, [] => []
  | s, p :: ps => (pbStep s p).2 :: pbRun (pbStep s p).1 ps

/-- Invariant carried over the first five dispatches of
`process_plate_batch`, relative to the first dispatch time `t1`: either
the clock has already moved at least 60 s past `t1`, or the window holds
exactly the `j` dispatch times so far, headed by `t1`, all at least `t1`. -/
def pbInv (j t1 : Nat) (s : PBState) : Prop :=
  t1 ≤ s.now ∧
    (t1 + 60 ≤ s.now ∨
      (s.window.length = j ∧ s.window.head? = some t1 ∧ ∀ x ∈ s.window, t1 ≤ x))

end VehicleFlows

namespace VehicleFlows

example : validate_plate "AB1234" = none := by decide
example : validate_plate "ABC1234" = some "ABC1234" := by decide
example : validate_plate "ABC1D23" = some "ABC1D23" := by decide
example : validate_plate "abc-1234" = some "ABC1234" := by decide
example : validate_plate "ABCD123" = none := by decide
example : safe_int (some (.str "****")) = none := by decide
example : safe_int (some (.int 2020)) = some 2020 := by decide
example : safe_int (some (.int 1899)) = none := by decide
example : safe_int (some (.str "2020")) = some 2020 := by decide
example : safe_int (some (.str "20x0")) = none := by decide
example : safe_int (some (.int 3000000000)) = none := by decide
example : strContainsSub "HONDA CIVIC EX" "CIVIC" = true := by decide
example : strContainsSub "PLACA_REJEITADA" "400" = false := by decide
example : pySplit "  UNO  MILLE " = ["UNO", "MILLE"] := by decide
example : intToStr 2020 = "2020" := by decide
example : intToStr 0 = "0" := by decide
example : intToStr (-13) = "-13" := by decide
example : pyParseInt " +42 " = some 42 := by decide
example : pyParseInt "-42" = some (-42) := by decide

example : brandCode "HONDA" = some "25" := by decide
example : brandCode "XYZ" = none := by decide
example : yearToken { label := "2020 Gasolina", value := "2020-1" } = "2020" := by decide
example : yearToken { label := "2020 Gasolina", value := "2020" } = "2020" := by decide
example :
    (query_fipe "HONDA" "CIVIC" 2020 civicProvider).1 =
      .success "R$ 99.000,00"
        { alternative_search := true, original_model := some "HONDA CIVIC TOURING",
          available_years := some "2019 Gasolina", brand_code := "25",
          model_code := "9001", year_fuel_code := "2020-1" } := by decide
example : (query_fipe "HONDA" "CIVIC" 2020 civicProvider).2 = 4 := by decide
example : query_fipe "XYZBRAND" "CIVIC" 2020 civicProvider =
    (.invalid "Marca \x27XYZBRAND\x27 não mapeada", 0) := by decide
example : (query_fipe "HONDA" "OPALA" 2020 civicProvider).1 =
    .invalid "Modelo \x27OPALA\x27 não encontrado" := by decide

/-! Lemmas about the guarded per-key status updates. -/

lemma guardHit_setStatus (froms : List String) (keys : List (String × String × Int))
    (r : VeiculoRow) (st : String) (h : froms.contains st = false) :
    guardHit froms keys { r with ds_status := st } = false := by
  show (anyKeyMatches keys { r with ds_status := st } && froms.contains st) = false
  rw [h, Bool.and_false]

lemma guardedRowMap_cons (froms : List String) (toSt : String)
    (h : froms.contains toSt = false) (k : String × String × Int)
    (ks : List (String × String × Int)) (r : VeiculoRow) :
    guardedRowMap froms toSt ks
        (if vMatches r k && froms.contains r.ds_status then { r with ds_status := toSt }
         else r) =
      guardedRowMap froms toSt (k :: ks) r := by
  cases hA : (vMatches r k && froms.contains r.ds_status) with
  | true =>
    rw [if_pos rfl]
    have hvc := hA
    rw [Bool.and_eq_true] at hvc
    obtain ⟨hv, hc⟩ := hvc
    have e2 : guardHit froms (k :: ks) r = true := by
      show (anyKeyMatches (k :: ks) r && froms.contains r.ds_status) = true
      unfold anyKeyMatches
      rw [List.any_cons, hv, Bool.true_or, Bool.true_and]
      exact hc
    unfold guardedRowMap
    rw [guardHit_setStatus froms ks r toSt h, e2]
    simp
  | false =>
    rw [if_neg (by simp)]
    have e3 : guardHit froms (k :: ks) r = guardHit froms ks r := by
      show (anyKeyMatches (k :: ks) r && froms.contains r.ds_status) =
        (anyKeyMatches ks r && froms.contains r.ds_status)
      unfold anyKeyMatches
      rw [List.any_cons]
      cases hv : vMatches r k with
      | false => rw [Bool.false_or]
      | true =>
        have hc : froms.contains r.ds_status = false := by
          cases hc2 : froms.contains r.ds_status with
          | false => rfl
          | true => rw [hv, hc2] at hA; exact absurd hA (by simp)
        rw [hc, Bool.and_false, Bool.and_false]
    unfold guardedRowMap
    rw [e3]

lemma guardHit_cons_after (froms : List String) (toSt : String)
    (h : froms.contains toSt = false) (k : String × String × Int)
    (ks : List (String × String × Int)) (r : VeiculoRow) :
    guardHit froms ks
        (if vMatches r k && froms.contains r.ds_status then { r with ds_status := toSt }
         else r) =
      (guardHit froms ks r && !(vMatches r k && froms.contains r.ds_status)) := by
  cases hA : (vMatches r k && froms.contains r.ds_status) with
  | true =>
    rw [if_pos rfl, guardHit_setStatus froms ks r toSt h, Bool.not_true, Bool.and_false]
  | false =>
    rw [if_neg (by simp), Bool.not_false, Bool.and_true]

lemma guardHit_cons_or (froms : List String) (k : String × String × Int)
    (ks : List (String × String × Int)) (r : VeiculoRow) :
    guardHit froms (k :: ks) r =
      ((vMatches r k && froms.contains r.ds_status) || guardHit froms ks r) := by
  show (anyKeyMatches (k :: ks) r && froms.contains r.ds_status) = _
  unfold anyKeyMatches guardHit anyKeyMatches
  rw [List.any_cons]
  cases hv : vMatches r k <;> cases hc : froms.contains r.ds_status <;> simp

lemma guardHit_rowMap (froms : List String) (toSt : String)
    (keys : List (String × String × Int)) (h : froms.contains toSt = false)
    (r : VeiculoRow) :
    guardHit froms keys (guardedRowMap froms toSt keys r) = false := by
  unfold guardedRowMap
  cases hh : guardHit froms keys r with
  | true =>
    rw [if_pos rfl]
    exact guardHit_setStatus froms keys r toSt h
  | false =>
    rw [if_neg (by simp)]
    exact hh

lemma guardedRowMap_idem (froms : List String) (toSt : String)
    (keys : List (String × String × Int)) (h : froms.contains toSt = false)
    (r : VeiculoRow) :
    guardedRowMap froms toSt keys (guardedRowMap froms toSt keys r) =
      guardedRowMap froms toSt keys r := by
  unfold guardedRowMap
  cases hh : guardHit froms keys r with
  | true => simp [guardHit_setStatus froms keys r toSt h]
  | false => simp [hh]

lemma countP_add_of_split {α : Type} (q p : α → Bool) (l : List α) :
    l.countP q + l.countP (fun a => p a && !q a) = l.countP (fun a => q a || p a) := by
  induction l with
  | nil => simp
  | cons a l ih =>
    by_cases hq : q a = true <;> by_cases hp : p a = true <;>
      simp [List.countP_cons, hq, hp] <;> omega

/-- Normal form of the per-key guarded update loop: it equals the single
conditional update over the whole key list, and the summed rowcount is the
number of rows hit (each transitioned row is counted exactly once, since a
row set to `toSt` can no longer be hit). -/
lemma updateKeysGuarded_eq (froms : List String) (toSt : String)
    (h : froms.contains toSt = false) :
    ∀ (keys : List (String × String × Int)) (t : List VeiculoRow),
      updateKeysGuarded froms toSt t keys =
        (t.map (guardedRowMap froms toSt keys), t.countP (guardHit froms keys)) := by
  intro keys
  induction keys with
  | nil =>
    intro t
    show (t, 0) = _
    have e1 : ∀ r ∈ t, guardedRowMap froms toSt [] r = r := by
      intro r _
      unfold guardedRowMap
      rw [if_neg]
      show ¬((anyKeyMatches [] r && froms.contains r.ds_status) = true)
      simp [anyKeyMatches]
    have e2 : t.countP (guardHit froms []) = 0 := by
      refine List.countP_eq_zero.mpr ?_
      intro r _
      show ¬((anyKeyMatches [] r && froms.contains r.ds_status) = true)
      simp [anyKeyMatches]
    rw [e2]
    have e3 : t.map (guardedRowMap froms toSt []) = t := by
      calc t.map (guardedRowMap froms toSt []) = t.map id := List.map_congr_left e1
      _ = t := List.map_id t
    rw [e3]
  | cons k ks ih =>
    intro t
    show ((updateKeysGuarded froms toSt (updateKeyGuarded froms toSt t k).1 ks).1,
        (updateKeyGuarded froms toSt t k).2 +
          (updateKeysGuarded froms toSt (updateKeyGuarded froms toSt t k).1 ks).2) = _
    rw [ih]
    simp only [updateKeyGuarded, List.map_map, List.countP_map]
    refine Prod.ext ?_ ?_
    · show List.map _ t = _
      refine List.map_congr_left ?_
      intro r _
      exact guardedRowMap_cons froms toSt h k ks r
    · show t.countP _ + t.countP _ = _
      have e1 : t.countP
          ((guardHit froms ks) ∘
            (fun r => if vMatches r k && froms.contains r.ds_status then
                { r with ds_status := toSt } else r)) =
          t.countP (fun r =>
            guardHit froms ks r && !(vMatches r k && froms.contains r.ds_status)) := by
        refine List.countP_congr ?_
        intro r _
        have e0 := guardHit_cons_after froms toSt h k ks r
        simp only [Function.comp]
        rw [e0]
      rw [e1, countP_add_of_split]
      refine List.countP_congr ?_
      intro r _
      rw [guardHit_cons_or froms k ks r]

/-- Running the same guarded update twice: the second pass hits no row, so
it returns the unchanged table together with rowcount 0. -/
lemma updateKeysGuarded_second (froms : List String) (toSt : String)
    (h : froms.contains toSt = false) (t : List VeiculoRow)
    (keys : List (String × String × Int)) :
    updateKeysGuarded froms toSt (updateKeysGuarded froms toSt t keys).1 keys =
      ((updateKeysGuarded froms toSt t keys).1, 0) := by
  rw [updateKeysGuarded_eq froms toSt h keys t, updateKeysGuarded_eq froms toSt h keys]
  simp only [Prod.mk.injEq]
  constructor
  · rw [List.map_map]
    refine List.map_congr_left ?_
    intro r _
    simp only [Function.comp]
    exact guardedRowMap_idem froms toSt keys h r
  · rw [List.countP_map]
    refine List.countP_eq_zero.mpr ?_
    intro r _
    simp only [Function.comp]
    simp [guardHit_rowMap froms toSt keys h r]

/-! Lemmas about update_status_invalid_vf (guarded, with per-key reason). -/

lemma usi_preserve (k : String × String × Int) :
    ∀ (ks : List ((String × String × Int) × String)) (t : List VeiculoRow),
      (∀ r ∈ t, vMatches r k = true → ¬(r.ds_status = "P")) →
      ∀ r ∈ (update_status_invalid_vf t ks).1, vMatches r k = true → ¬(r.ds_status = "P") := by
  intro ks
  induction ks with
  | nil =>
    intro t ht
    simpa [update_status_invalid_vf] using ht
  | cons p ps ih =>
    intro t ht
    obtain ⟨k2, reason⟩ := p
    simp only [update_status_invalid_vf]
    apply ih
    intro r hr
    obtain ⟨r0, hr0, rfl⟩ := List.mem_map.mp hr
    cases hg : (vMatches r0 k2 && r0.ds_status == "P") with
    | true =>
      rw [if_pos rfl]
      intro _hm
      simp
    | false =>
      rw [if_neg (by simp)]
      exact ht r0 hr0

lemma usi_establish :
    ∀ (ks : List ((String × String × Int) × String)) (t : List VeiculoRow)
      (k : String × String × Int) (reason : String), (k, reason) ∈ ks →
      ∀ r ∈ (update_status_invalid_vf t ks).1, vMatches r k = true → ¬(r.ds_status = "P") := by
  intro ks
  induction ks with
  | nil =>
    intro t k reason hmem
    cases hmem
  | cons p ps ih =>
    intro t k reason hmem
    obtain ⟨k2, reason2⟩ := p
    rcases List.mem_cons.mp hmem with heq | htail
    · have hk : k = k2 := (Prod.mk.injEq _ _ _ _ ▸ congrArg Prod.fst heq)
      subst hk
      simp only [update_status_invalid_vf]
      apply usi_preserve
      intro r hr
      obtain ⟨r0, hr0, rfl⟩ := List.mem_map.mp hr
      cases hg : (vMatches r0 k && r0.ds_status == "P") with
      | true =>
        rw [if_pos rfl]
        intro _hm
        simp
      | false =>
        rw [if_neg (by simp)]
        intro hm hP
        rw [hm, Bool.true_and, hP] at hg
        simp at hg
    · simp only [update_status_invalid_vf]
      exact ih _ k reason htail

lemma usi_noop :
    ∀ (ks : List ((String × String × Int) × String)) (t : List VeiculoRow),
      (∀ (k : String × String × Int) (reason : String), (k, reason) ∈ ks →
        ∀ r ∈ t, vMatches r k = true → ¬(r.ds_status = "P")) →
      update_status_invalid_vf t ks = (t, 0) := by
  intro ks
  induction ks with
  | nil => intro t _; rfl
  | cons p ps ih =>
    intro t h
    obtain ⟨k2, reason2⟩ := p
    have hrow : ∀ r ∈ t,
        (if vMatches r k2 && r.ds_status == "P" then
          ({ r with ds_status := "I", ds_motivo_erro := some reason2 } : VeiculoRow)
         else r) = r := by
      intro r hr
      rw [if_neg]
      intro hg
      rw [Bool.and_eq_true] at hg
      exact h k2 reason2 (List.mem_cons_self _ _) r hr hg.1 (by simpa using hg.2)
    have hmap : t.map (fun r =>
        if vMatches r k2 && r.ds_status == "P" then
          ({ r with ds_status := "I", ds_motivo_erro := some reason2 } : VeiculoRow)
        else r) = t := by
      calc t.map _ = t.map id := List.map_congr_left hrow
      _ = t := List.map_id t
    have hcount : t.countP (fun r => vMatches r k2 && r.ds_status == "P") = 0 := by
      refine List.countP_eq_zero.mpr ?_
      intro r hr hg
      rw [Bool.and_eq_true] at hg
      exact h k2 reason2 (List.mem_cons_self _ _) r hr hg.1 (by simpa using hg.2)
    simp only [update_status_invalid_vf]
    rw [hmap, hcount]
    rw [ih t (fun k reason hm => h k reason (List.mem_cons_of_mem _ hm))]
    simp

lemma usi_second (t : List VeiculoRow)
    (ks : List ((String × String × Int) × String)) :
    update_status_invalid_vf (update_status_invalid_vf t ks).1 ks =
      ((update_status_invalid_vf t ks).1, 0) :=
  usi_noop ks _ (fun k reason hm r hr => usi_establish ks t k reason hm r hr)

/-! Claim C1. -/

/-- Claim C1 counterexample: in main_details.py the claim step is
`update_status(conn, plates, P, update_collection_date=True)`, whose
UPDATE has no status guard, so for the key ABC1234 (initially New) the
first claim reports 1 row and a second claim of the same key reports 1
again, not 0. -/
theorem claim_C1_counterexample :
    (md_update_status [plateRowNew] ["ABC1234"] "P" true 100).2 = 1 ∧
    (md_update_status (md_update_status [plateRowNew] ["ABC1234"] "P" true 100).1
        ["ABC1234"] "P" true 200).2 = 1 ∧
    (md_update_status (md_update_status [plateRowNew] ["ABC1234"] "P" true 100).1
        ["ABC1234"] "P" true 200).2 ≠ 0 := by
  decide

/-- Claim C1 (amended): the guarded claim `update_status_processing` of
vehicle_fipe_to_snowflake.py updates to Processing exactly the rows whose
key is listed and whose status is New or Error, returns the number of rows
actually transitioned, and a second claim of the same keys changes nothing
and returns 0. -/
theorem claim_C1_amended (t : List VeiculoRow) (keys : List (String × String × Int)) :
    update_status_processing_vf t keys =
      (t.map (guardedRowMap ["N", "E"] "P" keys), t.countP (guardHit ["N", "E"] keys)) ∧
    (update_status_processing_vf (update_status_processing_vf t keys).1 keys).2 = 0 ∧
    (update_status_processing_vf (update_status_processing_vf t keys).1 keys).1 =
      (update_status_processing_vf t keys).1 := by
  have h : (["N", "E"] : List String).contains "P" = false := by decide
  refine ⟨updateKeysGuarded_eq _ _ h keys t, ?_, ?_⟩
  · show (updateKeysGuarded ["N", "E"] "P"
        (updateKeysGuarded ["N", "E"] "P" t keys).1 keys).2 = 0
    rw [updateKeysGuarded_second _ _ h t keys]
  · show (updateKeysGuarded ["N", "E"] "P"
        (updateKeysGuarded ["N", "E"] "P" t keys).1 keys).1 =
      (updateKeysGuarded ["N", "E"] "P" t keys).1
    rw [updateKeysGuarded_second _ _ h t keys]

/-! Claim C3. -/

/-- Claim C3 counterexample: in main_fipe.py the terminal marks go through
`update_status`, whose UPDATE matches on the composite key with no status
guard, so marking the key (FIAT, UNO, 2020) Success twice reports 1
affected row both times, not 0 on the second call. -/
theorem claim_C3_counterexample :
    (mf_update_status [vehRowProcessing] [("FIAT", "UNO", 2020)] "S").2 = 1 ∧
    (mf_update_status (mf_update_status [vehRowProcessing] [("FIAT", "UNO", 2020)] "S").1
        [("FIAT", "UNO", 2020)] "S").2 = 1 ∧
    (mf_update_status (mf_update_status [vehRowProcessing] [("FIAT", "UNO", 2020)] "S").1
        [("FIAT", "UNO", 2020)] "S").2 ≠ 0 := by
  decide

/-- Claim C3 (amended): in vehicle_fipe_to_snowflake.py the terminal marks
(success, error, invalid) are each guarded by `AND DS_STATUS = P`: the
success mark updates exactly the listed Processing rows, and repeating any
of the three marks affects 0 rows and leaves the table unchanged. -/
theorem claim_C3_amended (t : List VeiculoRow) (keys : List (String × String × Int))
    (pairs : List ((String × String × Int) × String)) :
    mark_success_vf t keys =
      (t.map (guardedRowMap ["P"] "S" keys), t.countP (guardHit ["P"] keys)) ∧
    mark_success_vf (mark_success_vf t keys).1 keys = ((mark_success_vf t keys).1, 0) ∧
    mark_error_vf (mark_error_vf t keys).1 keys = ((mark_error_vf t keys).1, 0) ∧
    update_status_invalid_vf (update_status_invalid_vf t pairs).1 pairs =
      ((update_status_invalid_vf t pairs).1, 0) := by
  have hs : (["P"] : List String).contains "S" = false := by decide
  have he : (["P"] : List String).contains "E" = false := by decide
  exact ⟨updateKeysGuarded_eq _ _ hs keys t,
    updateKeysGuarded_second _ _ hs t keys,
    updateKeysGuarded_second _ _ he t keys,
    usi_second t pairs⟩

/-! Claim C9. -/

/-- Claim C9 counterexample: a single row already in Processing (claimed
by another run) is still fetched by get_pending, still returned in the
batch, and the set of keys this run transitioned from New/Error is empty,
so the batch is not the transitioned subset. -/
theorem claim_C9_counterexample :
    (acquire_batch [plateRowProcessing] 10 50).1 = ["XYZ9876"] ∧
    transitionedKeys [plateRowProcessing] (acquire_batch [plateRowProcessing] 10 50).1 = [] ∧
    (acquire_batch [plateRowProcessing] 10 50).1 ≠
      transitionedKeys [plateRowProcessing] (acquire_batch [plateRowProcessing] 10 50).1 := by
  decide

/-- Claim C9 (amended): the batch-acquisition step returns every key
fetched by get_pending (statuses Processing, Error, New) regardless of how
many rows the claim update actually transitioned; the returned count is
the number of rows matching the IN list (not the number transitioned), and
after the step every row whose key is in the batch is in Processing. -/
theorem claim_C9_amended (t : List PlacaRow) (n : Nat) (now : Int) :
    (acquire_batch t n now).1 = (get_pending_plates t n).map (fun r => r.ds_placa) ∧
    (acquire_batch t n now).2.1 =
      t.countP (fun r => (acquire_batch t n now).1.contains r.ds_placa) ∧
    (∀ r ∈ (acquire_batch t n now).2.2,
      (acquire_batch t n now).1.contains r.ds_placa = true → r.ds_status = "P") := by
  refine ⟨rfl, ?_, ?_⟩
  · show (md_update_status t ((get_pending_plates t n).map (fun r => r.ds_placa)) "P" true now).2 =
      t.countP (fun r => ((get_pending_plates t n).map (fun r => r.ds_placa)).contains r.ds_placa)
    unfold md_update_status
    by_cases hp : ((get_pending_plates t n).map (fun r => r.ds_placa)) = []
    · rw [if_pos hp, hp]
      simp
    · rw [if_neg hp]
  · intro r hr hc
    have hr' : r ∈ (md_update_status t
        ((get_pending_plates t n).map (fun x => x.ds_placa)) "P" true now).1 := hr
    have hc' : ((get_pending_plates t n).map (fun x => x.ds_placa)).contains r.ds_placa
        = true := hc
    unfold md_update_status at hr'
    by_cases hp : ((get_pending_plates t n).map (fun x => x.ds_placa)) = []
    · rw [hp] at hc'
      simp at hc'
    · rw [if_neg hp] at hr'
      obtain ⟨r0, hr0, rfl⟩ := List.mem_map.mp hr'
      by_cases hm :
          ((get_pending_plates t n).map (fun x => x.ds_placa)).contains r0.ds_placa = true
      · rw [if_pos hm]
        simp
      · rw [if_neg hm] at hc'
        exact absurd hc' hm

/-! Lemmas about the process_plate_batch rate limiter. -/

lemma pbMinInterval_ge (s : PBState) : s.now ≤ pbMinInterval s := by
  unfold pbMinInterval
  cases s.lastReq with
  | none => exact le_refl _
  | some l =>
    show s.now ≤ if s.now - l < 10 then l + 10 else s.now
    by_cases hl : s.now - l < 10
    · rw [if_pos hl]
      omega
    · rw [if_neg hl]

lemma pbDispatchTime_ge (c1 : Nat) (w1 : List Nat) : c1 ≤ pbDispatchTime c1 w1 := by
  unfold pbDispatchTime
  by_cases h5 : 5 ≤ w1.length
  · rw [if_pos h5]
    by_cases h63 : c1 - w1.headD 0 < 63
    · rw [if_pos h63]
      omega
    · rw [if_neg h63]
  · rw [if_neg h5]

lemma pbStep_now (s : PBState) (p : Nat) :
    (pbStep s p).1.now = pbDispatchTime (pbMinInterval s) (pbWindow s (pbMinInterval s)) + p :=
  rfl

lemma pbStep_snd (s : PBState) (p : Nat) :
    (pbStep s p).2 = pbDispatchTime (pbMinInterval s) (pbWindow s (pbMinInterval s)) :=
  rfl

lemma pbStep_window (s : PBState) (p : Nat) :
    (pbStep s p).1.window =
      (if 5 ≤ (pbWindow s (pbMinInterval s)).length then
        (pbWindow s (pbMinInterval s)).tail ++
          [pbDispatchTime (pbMinInterval s) (pbWindow s (pbMinInterval s))]
      else
        pbWindow s (pbMinInterval s) ++
          [pbDispatchTime (pbMinInterval s) (pbWindow s (pbMinInterval s))]) :=
  rfl

lemma pbWindow_all (s : PBState) (t1 : Nat) (h60 : pbMinInterval s - t1 < 60)
    (hall : ∀ x ∈ s.window, t1 ≤ x) : pbWindow s (pbMinInterval s) = s.window := by
  unfold pbWindow
  refine List.filter_eq_self.mpr ?_
  intro x hx
  have hx1 := hall x hx
  simp only [decide_eq_true_eq]
  omega

/-- Invariant preservation over dispatches 2..5. -/
lemma pbInv_step (j t1 : Nat) (s : PBState) (p : Nat) (hj : j ≤ 4)
    (h : pbInv j t1 s) : pbInv (j + 1) t1 (pbStep s p).1 := by
  obtain ⟨hle, hcase⟩ := h
  have hc1 : s.now ≤ pbMinInterval s := pbMinInterval_ge s
  have hc2 : pbMinInterval s ≤ pbDispatchTime (pbMinInterval s) (pbWindow s (pbMinInterval s)) :=
    pbDispatchTime_ge _ _
  rcases hcase with hA | ⟨hlen, hhead, hall⟩
  · refine ⟨?_, Or.inl ?_⟩
    · rw [pbStep_now]
      omega
    · rw [pbStep_now]
      omega
  · by_cases hdrop : pbMinInterval s - t1 < 60
    · have hw1 : pbWindow s (pbMinInterval s) = s.window := pbWindow_all s t1 hdrop hall
      have hlen5 : ¬(5 ≤ (pbWindow s (pbMinInterval s)).length) := by
        rw [hw1, hlen]
        omega
      have hct : pbDispatchTime (pbMinInterval s) (pbWindow s (pbMinInterval s)) =
          pbMinInterval s := by
        unfold pbDispatchTime
        rw [if_neg hlen5]
      refine ⟨?_, Or.inr ⟨?_, ?_, ?_⟩⟩
      · rw [pbStep_now]
        omega
      · rw [pbStep_window, if_neg hlen5, hw1]
        simp [hlen]
      · rw [pbStep_window, if_neg hlen5, hw1]
        cases hwin : s.window with
        | nil => rw [hwin] at hhead; cases hhead
        | cons a l =>
          rw [hwin] at hhead
          simp only [List.head?_cons, Option.some.injEq] at hhead
          simp [hhead]
      · rw [pbStep_window, if_neg hlen5, hw1]
        intro x hx
        rcases List.mem_append.mp hx with hx1 | hx2
        · exact hall x hx1
        · have hx3 : x = pbDispatchTime (pbMinInterval s) s.window := by
            simpa using hx2
          have hge := pbDispatchTime_ge (pbMinInterval s) s.window
          omega
    · have hpast : t1 + 60 ≤ pbMinInterval s := by omega
      refine ⟨?_, Or.inl ?_⟩
      · rw [pbStep_now]
        omega
      · rw [pbStep_now]
        omega

/-- The sixth dispatch is at least 60 s after the first. -/
lemma pbInv_final (t1 : Nat) (s : PBState) (p : Nat) (h : pbInv 5 t1 s) :
    t1 + 60 ≤ (pbStep s p).2 := by
  obtain ⟨hle, hcase⟩ := h
  have hc1 : s.now ≤ pbMinInterval s := pbMinInterval_ge s
  have hc2 : pbMinInterval s ≤ pbDispatchTime (pbMinInterval s) (pbWindow s (pbMinInterval s)) :=
    pbDispatchTime_ge _ _
  rcases hcase with hA | ⟨hlen, hhead, hall⟩
  · rw [pbStep_snd]
    omega
  · by_cases hdrop : pbMinInterval s - t1 < 60
    · have hw1 : pbWindow s (pbMinInterval s) = s.window := pbWindow_all s t1 hdrop hall
      have hlen5 : 5 ≤ (pbWindow s (pbMinInterval s)).length := by
        rw [hw1, hlen]
      have hfirst : (pbWindow s (pbMinInterval s)).headD 0 = t1 := by
        rw [hw1]
        cases hwin : s.window with
        | nil => rw [hwin] at hhead; cases hhead
        | cons a l =>
          rw [hwin] at hhead
          simp only [List.head?_cons, Option.some.injEq] at hhead
          simp [hhead]
      rw [pbStep_snd]
      unfold pbDispatchTime
      rw [if_pos hlen5, hfirst]
      by_cases h63 : pbMinInterval s - t1 < 63
      · rw [if_pos h63]
        omega
      · rw [if_neg h63]
        omega
    · rw [pbStep_snd]
      omega

lemma pbRun6_head (s : PBState) (p1 p2 p3 p4 p5 p6 : Nat) :
    (pbRun s [p1, p2, p3, p4, p5, p6]).headD 0 = (pbStep s p1).2 := rfl

lemma pbRun6_last (s : PBState) (p1 p2 p3 p4 p5 p6 : Nat) :
    (pbRun s [p1, p2, p3, p4, p5, p6]).getLastD 0 =
      (pbStep (pbStep (pbStep (pbStep (pbStep (pbStep s p1).1 p2).1 p3).1 p4).1 p5).1 p6).2 :=
  rfl

/-! Claim C2. -/

/-- Claim C2 counterexample: in main_details.py process_plates the
window-sleep and minimum-interval blocks are commented out, so six
back-to-back requests with zero processing time are all dispatched at the
same instant: the 6th dispatch is not 60 s after the 1st. -/
theorem claim_C2_counterexample :
    mdRun { now := 0, window := [] } [0, 0, 0, 0, 0, 0] = [0, 0, 0, 0, 0, 0] ∧
    ¬((mdRun { now := 0, window := [] } [0, 0, 0, 0, 0, 0]).headD 0 + 60 ≤
      (mdRun { now := 0, window := [] } [0, 0, 0, 0, 0, 0]).getLastD 0) := by
  decide

/-- Claim C2 (amended): in process_plate_batch of
vehicle_details_api_to_snowflake.py (where the windowing is active:
timestamps older than 60 s are dropped before each request, and with 5
entries in the window the loop sleeps until the oldest entry exits the
window plus a 3 s safety margin), for any six consecutive requests from a
fresh batch state and any per-request processing times, the 6th dispatch
time is at least 60 s after the 1st. -/
theorem claim_C2_amended (now0 p1 p2 p3 p4 p5 p6 : Nat) :
    (pbRun { now := now0, window := [], lastReq := none } [p1, p2, p3, p4, p5, p6]).headD 0
        + 60 ≤
      (pbRun { now := now0, window := [], lastReq := none }
        [p1, p2, p3, p4, p5, p6]).getLastD 0 := by
  rw [pbRun6_head, pbRun6_last]
  have e0 : (pbStep ({ now := now0, window := [], lastReq := none } : PBState) p1).2 = now0 :=
    rfl
  have e1 : (pbStep ({ now := now0, window := [], lastReq := none } : PBState) p1).1 =
      { now := now0 + p1, window := [now0], lastReq := some now0 } := rfl
  rw [e0, e1]
  have i1 : pbInv 1 now0 ({ now := now0 + p1, window := [now0], lastReq := some now0 } : PBState) := by
    refine ⟨Nat.le_add_right _ _, Or.inr ⟨rfl, rfl, ?_⟩⟩
    intro x hx
    simp at hx
    omega
  have i2 := pbInv_step 1 now0 _ p2 (by omega) i1
  have i3 := pbInv_step 2 now0 _ p3 (by omega) i2
  have i4 := pbInv_step 3 now0 _ p4 (by omega) i3
  have i5 := pbInv_step 4 now0 _ p5 (by omega) i4
  exact pbInv_final now0 _ p6 i5

/-! Lemmas about the query_plate retry loop. -/

lemma retryLoop_calls_le (responses : Nat → PlateOutcome) :
    ∀ (fuel attempts : Nat), (retryLoop responses attempts fuel).2.2 ≤ fuel := by
  intro fuel
  induction fuel with
  | zero =>
    intro a
    simp [retryLoop]
  | succ f ih =>
    intro a
    unfold retryLoop
    cases hr : responses a with
    | invalid r => simp
    | rateLimited =>
      by_cases hlt : a + 1 < MAX_RETRIES
      · simp only [if_pos hlt]
        have h2 := ih (a + 1)
        simp
        omega
      · simp [if_neg hlt]
    | success d => simp
    | transientUnknown => simp

lemma retryLoop_calls_pos (responses : Nat → PlateOutcome) (attempts fuel : Nat)
    (h : 0 < fuel) : 1 ≤ (retryLoop responses attempts fuel).2.2 := by
  cases fuel with
  | zero => omega
  | succ f =>
    unfold retryLoop
    cases hr : responses attempts with
    | invalid r => simp
    | rateLimited =>
      by_cases hlt : attempts + 1 < MAX_RETRIES
      · simp [if_pos hlt]
      · simp [if_neg hlt]
    | success d => simp
    | transientUnknown => simp

/-- Under all-429 responses the loop retries with backoff
`RETRY_BACKOFF + attempts * 5`, makes exactly `fuel` calls and ends in the
Python `None` outcome. -/
lemma retryLoop_all429 :
    ∀ (fuel attempts : Nat) (responses : Nat → PlateOutcome),
      attempts + fuel = MAX_RETRIES → 0 < fuel →
      (∀ i, i < MAX_RETRIES → responses i = PlateOutcome.rateLimited) →
      retryLoop responses attempts fuel =
        (.transientUnknown, backoffList attempts fuel, fuel) := by
  intro fuel
  induction fuel with
  | zero =>
    intro a rs _ h0
    omega
  | succ f ih =>
    intro a rs hsum _ hall
    have ha : rs a = PlateOutcome.rateLimited := by
      refine hall a ?_
      show a < MAX_RETRIES
      omega
    unfold retryLoop
    rw [ha]
    by_cases hlt : a + 1 < MAX_RETRIES
    · have hf : 0 < f := by
        show 0 < f
        have h5 : MAX_RETRIES = 5 := rfl
        omega
      rw [if_pos hlt]
      have hrec := ih (a + 1) rs (by omega) hf hall
      rw [hrec]
      show (PlateOutcome.transientUnknown,
          (RETRY_BACKOFF + (a + 1) * 5) :: backoffList (a + 1) f, f + 1) = _
      rw [show backoffList a (f + 1) =
        (if a + 1 < MAX_RETRIES then
          (RETRY_BACKOFF + (a + 1) * 5) :: backoffList (a + 1) f
         else []) from rfl]
      rw [if_pos hlt]
    · have hf : f = 0 := by
        have h5 : MAX_RETRIES = 5 := rfl
        omega
      rw [if_neg hlt]
      subst hf
      show (PlateOutcome.transientUnknown, [], 1) = _
      rw [show backoffList a 1 =
        (if a + 1 < MAX_RETRIES then
          (RETRY_BACKOFF + (a + 1) * 5) :: backoffList (a + 1) 0
         else []) from rfl]
      rw [if_neg hlt]

/-! Claim C7. -/

/-- Claim C7: on RateLimited (429) outcomes query_plate retries with
backoff `RETRY_BACKOFF + attempt * 5` seconds for at most MAX_RETRIES = 5
network calls; with every response a 429 it performs exactly 5 calls with
the backoffs 20, 25, 30, 35 and returns the Python None outcome
(TransientUnknown, retryable), never an Invalid outcome. -/
theorem claim_C7 (responses : Nat → PlateOutcome)
    (h : ∀ i, i < MAX_RETRIES → responses i = PlateOutcome.rateLimited) :
    query_plate "ABC1234" responses =
      (.transientUnknown, backoffList 0 MAX_RETRIES, MAX_RETRIES) ∧
    backoffList 0 MAX_RETRIES = [20, 25, 30, 35] ∧
    (∀ reason, (query_plate "ABC1234" responses).1 ≠ .invalid reason) ∧
    (∀ (plate : String) (rs : Nat → PlateOutcome),
      (query_plate plate rs).2.2 ≤ MAX_RETRIES) := by
  have hq : query_plate "ABC1234" responses = retryLoop responses 0 MAX_RETRIES := by
    show (match validate_plate "ABC1234" with
      | none => (PlateOutcome.invalid "INVALID_PLATE_FORMAT", ([] : List Nat), 0)
      | some _ => retryLoop responses 0 MAX_RETRIES) = _
    rw [show validate_plate "ABC1234" = some "ABC1234" from by decide]
  have hmain : query_plate "ABC1234" responses =
      (.transientUnknown, backoffList 0 MAX_RETRIES, MAX_RETRIES) := by
    rw [hq]
    exact retryLoop_all429 MAX_RETRIES 0 responses rfl (by decide) h
  refine ⟨hmain, by decide, ?_, ?_⟩
  · intro reason
    rw [hmain]
    simp
  · intro plate rs
    unfold query_plate
    cases validate_plate plate with
    | none => simp
    | some pn =>
      show (retryLoop rs 0 MAX_RETRIES).2.2 ≤ MAX_RETRIES
      exact retryLoop_calls_le rs MAX_RETRIES 0

/-- Claim C7 witness: the all-429 scenario at the constant response
function. -/
theorem claim_C7_witness :
    query_plate "ABC1234" (fun _ => PlateOutcome.rateLimited) =
      (.transientUnknown, backoffList 0 MAX_RETRIES, MAX_RETRIES) ∧
    backoffList 0 MAX_RETRIES = [20, 25, 30, 35] := by
  have h := claim_C7 (fun _ => PlateOutcome.rateLimited) (fun i _ => rfl)
  exact ⟨h.1, h.2.1⟩

/-! Claim C8. -/

/-- Claim C8: exactly the two plate shapes (3 letters + 4 digits, and
3 letters + digit + letter + 2 digits, after normalization) pass local
validation; "AB1234" short-circuits to Invalid(INVALID_PLATE_FORMAT) with
zero network calls; "ABC1234" and "ABC1D23" pass validation and reach the
network layer (at least one call) for every response behaviour. -/
theorem claim_C8 :
    (∀ s : String, (validate_plate s).isSome ↔
      (s ≠ "" ∧ (matchesOldPattern (normalizePlate s) = true ∨
        matchesMercosulPattern (normalizePlate s) = true))) ∧
    (∀ rs : Nat → PlateOutcome,
      query_plate "AB1234" rs = (.invalid "INVALID_PLATE_FORMAT", [], 0)) ∧
    (∀ rs : Nat → PlateOutcome, 1 ≤ (query_plate "ABC1234" rs).2.2) ∧
    (∀ rs : Nat → PlateOutcome, 1 ≤ (query_plate "ABC1D23" rs).2.2) := by
  refine ⟨?_, ?_, ?_, ?_⟩
  · intro s
    unfold validate_plate
    by_cases hs : s = ""
    · rw [if_pos hs]
      simp [hs]
    · rw [if_neg hs]
      by_cases hm : (matchesOldPattern (normalizePlate s) ||
          matchesMercosulPattern (normalizePlate s)) = true
      · rw [if_pos hm]
        rw [Bool.or_eq_true] at hm
        simp [hs, hm]
      · rw [if_neg hm]
        rw [Bool.or_eq_true] at hm
        push_neg at hm
        simp [hs]
        exact ⟨by simpa using hm.1, by simpa using hm.2⟩
  · intro rs
    show (match validate_plate "AB1234" with
      | none => (PlateOutcome.invalid "INVALID_PLATE_FORMAT", ([] : List Nat), 0)
      | some _ => retryLoop rs 0 MAX_RETRIES) = _
    rw [show validate_plate "AB1234" = none from by decide]
  · intro rs
    show 1 ≤ (match validate_plate "ABC1234" with
      | none => (PlateOutcome.invalid "INVALID_PLATE_FORMAT", ([] : List Nat), 0)
      | some _ => retryLoop rs 0 MAX_RETRIES).2.2
    rw [show validate_plate "ABC1234" = some "ABC1234" from by decide]
    exact retryLoop_calls_pos rs 0 MAX_RETRIES (by decide)
  · intro rs
    show 1 ≤ (match validate_plate "ABC1D23" with
      | none => (PlateOutcome.invalid "INVALID_PLATE_FORMAT", ([] : List Nat), 0)
      | some _ => retryLoop rs 0 MAX_RETRIES).2.2
    rw [show validate_plate "ABC1D23" = some "ABC1D23" from by decide]
    exact retryLoop_calls_pos rs 0 MAX_RETRIES (by decide)

/-! Claim C6. -/

/-- Claim C6 counterexample: a 400 response whose JSON body carries an
error field is mapped by PlacaAPIClient._query_once to Invalid with the
body's error text, which does not encode the status code. -/
theorem claim_C6_counterexample :
    placaQueryOnce ⟨400, false, none, some "PLACA_REJEITADA"⟩ =
      .invalid "PLACA_REJEITADA" ∧
    strContainsSub "PLACA_REJEITADA" "400" = false := by
  decide

/-- Claim C6 (amended): the Placamaster plate client maps every HTTP
response to exactly one of the four outcomes, per `placaOutcomeSpec`:
400 to Invalid with the body error field (default 400_INVALID_DATA), 403
and 404 and 5xx to Invalid with a reason encoding the status code, 429 to
RateLimited, 200 with success and data but neither brand nor model truthy
to Invalid(EMPTY_DATA), 200 with success and data and brand or model to
Success(payload), and any other shape to TransientUnknown. -/
theorem claim_C6_amended (r : HttpResponse) : placaQueryOnce r = placaOutcomeSpec r := by
  obtain ⟨sc, su, da, ef⟩ := r
  unfold placaQueryOnce placaOutcomeSpec
  by_cases h400 : sc = 400 <;> by_cases h403 : sc = 403 <;> by_cases h404 : sc = 404 <;>
    by_cases h500 : 500 ≤ sc <;> by_cases h200 : sc = 200 <;> by_cases h429 : sc = 429 <;>
      simp_all

/-! Claim C10. -/

lemma clampYear_range (n m : Int) (h : clampYear n = some m) :
    1900 ≤ m ∧ m ≤ 2100 := by
  unfold clampYear at h
  split_ifs at h with h1 h2
  push_neg at h2
  first
  | omega
  | (injection h with h3
     omega)

lemma safe_int_range (v : Option PyVal) (n : Int) (h : safe_int v = some n) :
    1900 ≤ n ∧ n ≤ 2100 := by
  match v with
  | none => cases h
  | some (.int m) => exact clampYear_range m n h
  | some (.str s) =>
    have h2 : (if trimChars (removeChar '-' (removeChar '*' s.data)) = [] then none
        else match pyParseInt s with
          | none => none
          | some m => clampYear m) = some n := h
    by_cases hc : trimChars (removeChar '-' (removeChar '*' s.data)) = []
    · rw [if_pos hc] at h2
      cases h2
    · rw [if_neg hc] at h2
      cases hp : pyParseInt s with
      | none =>
        rw [hp] at h2
        cases h2
      | some m =>
        rw [hp] at h2
        exact clampYear_range m n h2
  | some .other => cases h

/-- Claim C10: both persisted year fields of the plate-enrichment row are
None or integers within [1900, 2100]; masked strings, non-parsable
strings, and out-of-range integers are all converted to None. -/
theorem claim_C10 (plate : String) (d : VehicleData) :
    (∀ n, (transform_plate_to_snowflake_row plate d).nr_ano_fabricacao = some n →
      1900 ≤ n ∧ n ≤ 2100) ∧
    (∀ n, (transform_plate_to_snowflake_row plate d).nr_ano_modelo = some n →
      1900 ≤ n ∧ n ≤ 2100) ∧
    safe_int (some (.str "****")) = none ∧
    (∀ s, pyParseInt s = none → safe_int (some (.str s)) = none) ∧
    (∀ m : Int, m < 1900 ∨ 2100 < m → safe_int (some (.int m)) = none) := by
  refine ⟨?_, ?_, by decide, ?_, ?_⟩
  · intro n h
    exact safe_int_range d.ano n h
  · intro n h
    exact safe_int_range d.anoModelo n h
  · intro s hp
    show (if trimChars (removeChar '-' (removeChar '*' s.data)) = [] then none
      else match pyParseInt s with
        | none => none
        | some m => clampYear m) = none
    by_cases hc : trimChars (removeChar '-' (removeChar '*' s.data)) = []
    · rw [if_pos hc]
    · rw [if_neg hc, hp]
  · intro m hm
    show clampYear m = none
    unfold clampYear
    by_cases h1 : m < -2147483648 ∨ 2147483647 < m
    · rw [if_pos h1]
    · rw [if_neg h1, if_pos hm]

/-- Claim C10 witness: concrete evaluations through the theorem. -/
theorem claim_C10_witness :
    (1900 ≤ (2020 : Int) ∧ (2020 : Int) ≤ 2100) ∧
    safe_int (some (.str "abc")) = none ∧
    safe_int (some (.int 2998244353)) = none := by
  have h := claim_C10 "ABC1234"
    { marca := none, modelo := none, ano := some (.int 2020), anoModelo := none, cor := none }
  exact ⟨h.1 2020 (by decide), h.2.2.2.1 "abc" (by decide),
    h.2.2.2.2 2998244353 (by decide)⟩

/-! Claim C4. -/

/-- Claim C4: in query_fipe the last element of the candidate list is the
primary candidate; when its year list has no entry whose leading year
token equals the target year but walking all candidates finds a first
variant+year pairing, and the final valuation succeeds, the result is
Success with alternative_search = true, the originally tried (last)
candidate's label recorded as original_model, and the variant's codes. -/
theorem claim_C4 (brand modelName : String) (yearModel : Int) (p : FipeProvider)
    (bc : String) (hb : brandCode (asciiUpper brand) = some bc)
    (hm : p.models.isEmpty = false)
    (compat : List ModelEntry)
    (hc : compatibleModels p.models (pySplit (asciiUpper modelName)) = compat)
    (hcne : compat.isEmpty = false)
    (hyears : (p.yearsOf (compat.getLastD { label := "", value := "" }).value).filter
        (fun y => yearToken y == intToStr yearModel) = [])
    (variant : ModelEntry) (vy : YearEntry) (calls : Nat)
    (halt : altSearchCalls p.yearsOf (intToStr yearModel) compat =
      (some (variant, vy), calls))
    (v : String)
    (hv : p.getValue variant.value (cleanYearOf vy.value) (fuelCodeOf vy.value) = some v) :
    (query_fipe brand modelName yearModel p).1 =
      .success v
        { alternative_search := true,
          original_model := some (compat.getLastD { label := "", value := "" }).label,
          available_years := some (availableYearsText
            (p.yearsOf (compat.getLastD { label := "", value := "" }).value)),
          brand_code := bc,
          model_code := variant.value,
          year_fuel_code := vy.value } := by
  simp only [query_fipe, hb, hm, Bool.false_eq_true, if_false, hc, hcne, hyears,
    List.head?_nil, halt, hv]

/-- Claim C4 witness: the CIVIC scenario with candidates EX, LX, TOURING,
2020 absent on TOURING (the last) and present on EX. -/
theorem claim_C4_witness :
    (query_fipe "HONDA" "CIVIC" 2020 civicProvider).1 =
      .success "R$ 99.000,00"
        { alternative_search := true,
          original_model := some "HONDA CIVIC TOURING",
          available_years := some "2019 Gasolina",
          brand_code := "25",
          model_code := "9001",
          year_fuel_code := "2020-1" } := by
  have h := claim_C4 "HONDA" "CIVIC" 2020 civicProvider "25" (by decide) (by decide)
    [⟨"HONDA CIVIC EX", "9001"⟩, ⟨"HONDA CIVIC LX", "9002"⟩,
      ⟨"HONDA CIVIC TOURING", "9003"⟩]
    (by decide) (by decide) (by decide)
    ⟨"HONDA CIVIC EX", "9001"⟩ ⟨"2020 Gasolina", "2020-1"⟩ 1 (by decide)
    "R$ 99.000,00" (by decide)
  exact h

/-! Claim C5. -/

/-- Claim C5: an unmapped brand yields the Invalid outcome with zero
provider calls; the candidate list is the set of models whose upper-cased
label contains every whitespace keyword as a substring, relaxed to the
first keyword when empty; and when still empty the outcome is the Invalid
model-not-found result after exactly the one model-list call. -/
theorem claim_C5 (brand modelName : String) (yearModel : Int) (p : FipeProvider) :
    (brandCode (asciiUpper brand) = none →
      query_fipe brand modelName yearModel p =
        (.invalid ("Marca \x27" ++ brand ++ "\x27 não mapeada"), 0)) ∧
    (∀ m : ModelEntry, m ∈ allKeywordModels p.models (pySplit (asciiUpper modelName)) ↔
      (m ∈ p.models ∧ ∀ k ∈ pySplit (asciiUpper modelName),
        strContainsSub (asciiUpper m.label) k = true)) ∧
    (∀ m : ModelEntry, m ∈ firstKeywordModels p.models (pySplit (asciiUpper modelName)) ↔
      (m ∈ p.models ∧ strContainsSub (asciiUpper m.label)
        ((pySplit (asciiUpper modelName)).headD "") = true)) ∧
    (allKeywordModels p.models (pySplit (asciiUpper modelName)) ≠ [] →
      compatibleModels p.models (pySplit (asciiUpper modelName)) =
        allKeywordModels p.models (pySplit (asciiUpper modelName))) ∧
    (allKeywordModels p.models (pySplit (asciiUpper modelName)) = [] →
      pySplit (asciiUpper modelName) ≠ [] →
      compatibleModels p.models (pySplit (asciiUpper modelName)) =
        firstKeywordModels p.models (pySplit (asciiUpper modelName))) ∧
    (∀ bc, brandCode (asciiUpper brand) = some bc → p.models.isEmpty = false →
      compatibleModels p.models (pySplit (asciiUpper modelName)) = [] →
      query_fipe brand modelName yearModel p =
        (.invalid ("Modelo \x27" ++ modelName ++ "\x27 não encontrado"), 1)) := by
  refine ⟨?_, ?_, ?_, ?_, ?_, ?_⟩
  · intro hb
    simp only [query_fipe, hb]
  · intro m
    unfold allKeywordModels
    rw [List.mem_filter]
    simp [List.all_eq_true]
  · intro m
    unfold firstKeywordModels
    rw [List.mem_filter]
  · intro hne
    unfold compatibleModels
    rw [if_neg (by simp [List.isEmpty_iff, hne])]
  · intro h1 h2
    unfold compatibleModels
    rw [if_pos (by simp [List.isEmpty_iff, h1, h2])]
  · intro bc hb hm hcomp
    simp only [query_fipe, hb, hm, Bool.false_eq_true, if_false, hcomp,
      List.isEmpty_nil, if_true]

/-- Claim C5 witness: an unmapped brand, a model not found even after
relaxation, and a relaxation that fires with the first keyword. -/
theorem claim_C5_witness :
    query_fipe "XYZBRAND" "CIVIC" 2020 civicProvider =
      (.invalid ("Marca \x27XYZBRAND\x27 não mapeada"), 0) ∧
    query_fipe "HONDA" "OPALA" 2020 civicProvider =
      (.invalid ("Modelo \x27OPALA\x27 não encontrado"), 1) ∧
    compatibleModels civicProvider.models (pySplit (asciiUpper "CIVIC ZZZ")) =
      firstKeywordModels civicProvider.models (pySplit (asciiUpper "CIVIC ZZZ")) := by
  refine ⟨(claim_C5 "XYZBRAND" "CIVIC" 2020 civicProvider).1 (by decide),
    (claim_C5 "HONDA" "OPALA" 2020 civicProvider).2.2.2.2.2 "25"
      (by decide) (by decide) (by decide),
    (claim_C5 "HONDA" "CIVIC ZZZ" 2020 civicProvider).2.2.2.2.1
      (by decide) (by decide)⟩

/-- Claim C8 witness: concrete evaluations through the theorem. -/
theorem claim_C8_witness :
    (validate_plate "ABC1234").isSome ∧
    query_plate "AB1234" (fun _ => PlateOutcome.transientUnknown) =
      (.invalid "INVALID_PLATE_FORMAT", [], 0) ∧
    1 ≤ (query_plate "ABC1234" (fun _ => PlateOutcome.transientUnknown)).2.2 := by
  refine ⟨(claim_C8.1 "ABC1234").mpr (by decide),
    claim_C8.2.1 (fun _ => PlateOutcome.transientUnknown),
    claim_C8.2.2.1 (fun _ => PlateOutcome.transientUnknown)⟩

/-- Claim C9 witness: the amended theorem applied to a one-row table. -/
theorem claim_C9_witness :
    ({ ds_placa := "ABC1234", ds_status := "P", ds_motivo_erro := none,
       nr_tentativas := 1, dt_insercao := 0, dt_coleta := some 7 } : PlacaRow).ds_status
      = "P" :=
  (claim_C9_amended [plateRowNew] 5 7).2.2
    { ds_placa := "ABC1234", ds_status := "P", ds_motivo_erro := none,
      nr_tentativas := 1, dt_insercao := 0, dt_coleta := some 7 }
    (by decide) (by decide)

end VehicleFlows
